import Mathlib

set_option autoImplicit false

/-!
Shallow embedding of the GEGL PNG codec (src/png/gegl/png-load.c and
src/png/gegl/png-save.c) and proofs about its color-space resolution,
pixel-format negotiation, header validation and chunk-emission behavior.

The third-party libpng parser and the babl color library are external
collaborators: what they deliver to this code (IHDR fields, chunk
presence/values, ICC parse results) is modelled as explicit inputs and
oracles, while everything the GEGL code itself computes is translated
statement by statement from the C source.
-/

/-! ## libpng constants (png.h) -/

def PNG_COLOR_MASK_PALETTE : Nat := 1
def PNG_COLOR_MASK_COLOR : Nat := 2
def PNG_COLOR_MASK_ALPHA : Nat := 4
def PNG_COLOR_TYPE_GRAY : Nat := 0
def PNG_COLOR_TYPE_PALETTE : Nat := 3
def PNG_COLOR_TYPE_RGB : Nat := 2
def PNG_COLOR_TYPE_RGB_ALPHA : Nat := 6
def PNG_COLOR_TYPE_GRAY_ALPHA : Nat := 4
def PNG_INTERLACE_NONE : Nat := 0
def PNG_INTERLACE_ADAM7 : Nat := 1
def PNG_sRGB_INTENT_RELATIVE : Nat := 1

/-- The 8-byte PNG file signature that png_sig_cmp checks against. -/
def pngSignature : List Nat := [137, 80, 78, 71, 13, 10, 26, 10]

/-! ## Color-space data model (babl collaborator surface) -/

/-- A set of chromaticities: white point and red/green/blue primaries,
as passed to babl_space_from_chromaticities / png_set_cHRM. -/
structure Chroma where
  wpX : ℚ
  wpY : ℚ
  redX : ℚ
  redY : ℚ
  greenX : ℚ
  greenY : ℚ
  blueX : ℚ
  blueY : ℚ
deriving DecidableEq, Repr

/-- A transfer curve built by babl_trc_gamma on the decode path. -/
inductive BablTrcSpec where
  | gammaTrc (g : ℚ)
deriving DecidableEq, Repr

/-- A babl color space as produced on the decode path: either derived
from an embedded ICC profile (babl_space_from_icc) or built from
chromaticities and per-channel transfer curves
(babl_space_from_chromaticities). -/
inductive BablSpace where
  | fromIcc (profile : List Nat)
  | fromChromaticities (c : Chroma) (t0 t1 t2 : BablTrcSpec)
deriving DecidableEq, Repr

/-- The sRGB-standard chromaticities used as defaults in gegl_png_space
(png-load.c lines 187-190): white 0.3127,0.3290; red 0.6400,0.3300;
green 0.3000,0.6000; blue 0.1500,0.0600. -/
def sRGBChroma : Chroma :=
  { wpX := (3127 : ℚ)/10000, wpY := (3290 : ℚ)/10000
    redX := (6400 : ℚ)/10000, redY := (3300 : ℚ)/10000
    greenX := (3000 : ℚ)/10000, greenY := (6000 : ℚ)/10000
    blueX := (1500 : ℚ)/10000, blueY := (600 : ℚ)/10000 }

/-- The ancillary color chunks libpng reports for a decoded image:
iCCP profile bytes when present, validity of the sRGB chunk, decoded
gAMA value when present, decoded cHRM values when present. -/
structure PngChunks where
  iccp : Option (List Nat)
  srgb : Bool
  gama : Option ℚ
  chrm : Option Chroma
deriving DecidableEq, Repr

/-- gegl_png_space (png-load.c lines 162-213): resolve a babl space from
the ancillary chunks. `parseIcc` is the babl_space_from_icc collaborator:
it may fail (return none) on a malformed profile, and the C code returns
its result directly without falling through to the other chunks. An sRGB
chunk yields NULL (the code comments that NULL means the same as the
sRGB space). A gAMA chunk yields a space built from cHRM chromaticities
when valid, else the sRGB defaults, with trc gamma 1/g on all three
channels. Otherwise NULL. -/
def gegl_png_space (parseIcc : List Nat → Option BablSpace)
    (c : PngChunks) : Option BablSpace :=
  match c.iccp with
  | some profile => parseIcc profile
  | none =>
    if c.srgb then none
    else
      match c.gama with
      | some g =>
        let ch := c.chrm.getD sRGBChroma
        some (BablSpace.fromChromaticities ch
          (BablTrcSpec.gammaTrc (1/g))
          (BablTrcSpec.gammaTrc (1/g))
          (BablTrcSpec.gammaTrc (1/g)))
      | none => none

/-! ## Pixel-format negotiation (get_babl_format) -/

/-- Channel layout of a babl pixel format: the strcpy part of the
format string in get_babl_format. -/
inductive ChannelLayout where
  | gray
  | grayAlpha
  | rgb
  | rgba
deriving DecidableEq, Repr

/-- Per-channel sample depth of a babl pixel format: the strcat part of
the format string in get_babl_format (u8 or u16). -/
inductive SampleDepth where
  | u8
  | u16
deriving DecidableEq, Repr

/-- A babl pixel format as assembled by get_babl_format and
babl_format_with_space. -/
structure BablFormat where
  layout : ChannelLayout
  depth : SampleDepth
  space : Option BablSpace
deriving DecidableEq, Repr

/-- The channel-layout selection of get_babl_format (png-load.c lines
119-143), translated with the same bit tests as the source: the first
branch tests color_type & PNG_COLOR_TYPE_RGB, the second
(color_type & PNG_COLOR_TYPE_GRAY) == PNG_COLOR_TYPE_GRAY, the third
color_type & PNG_COLOR_TYPE_PALETTE, and otherwise the function
fails. -/
def layoutOf (color_type : Nat) : Option ChannelLayout :=
  if Nat.land color_type PNG_COLOR_TYPE_RGB ≠ 0 then
    some (if Nat.land color_type PNG_COLOR_MASK_ALPHA ≠ 0 then
      ChannelLayout.rgba else ChannelLayout.rgb)
  else if Nat.land color_type PNG_COLOR_TYPE_GRAY = PNG_COLOR_TYPE_GRAY then
    some (if Nat.land color_type PNG_COLOR_MASK_ALPHA ≠ 0 then
      ChannelLayout.grayAlpha else ChannelLayout.gray)
  else if Nat.land color_type PNG_COLOR_TYPE_PALETTE ≠ 0 then
    some (if Nat.land color_type PNG_COLOR_MASK_ALPHA ≠ 0 then
      ChannelLayout.rgba else ChannelLayout.rgb)
  else none

/-- get_babl_format (png-load.c lines 114-159): select a babl format
from PNG bit depth and color type. Bit depth at most 8 yields u8,
exactly 16 yields u16, anything else fails (returns NULL). -/
def get_babl_format (bit_depth color_type : Nat)
    (space : Option BablSpace) : Option BablFormat :=
  match layoutOf color_type with
  | none => none
  | some l =>
    if bit_depth ≤ 8 then some ⟨l, SampleDepth.u8, space⟩
    else if bit_depth = 16 then some ⟨l, SampleDepth.u16, space⟩
    else none

/-! ## Header validation (check_valid_png_header) -/

/-- The two error codes of the gegl:load-png-error-quark domain
(png-load.c lines 49-52). -/
inductive LoadPngError where
  | tooShort (n : Nat)
  | wrongHeader
deriving DecidableEq, Repr

/-- Outcome of check_valid_png_header: the initial 8-byte read either
fails at the stream level (g_input_stream_read returns -1 with an
error), yields fewer than 8 bytes, yields 8 bytes that are not the PNG
signature, or succeeds. -/
inductive HeaderCheckResult where
  | ioFailed (msg : String)
  | tooShort (n : Nat)
  | wrongHeader
  | valid
deriving DecidableEq, Repr

/-- check_valid_png_header (png-load.c lines 79-112). The initial
8-byte stream read is modelled as an Except value: error when
g_input_stream_read returns -1, otherwise the bytes it produced (at
most 8, as requested). A short read sets LOAD_PNG_TOO_SHORT, a
signature mismatch sets LOAD_PNG_WRONG_HEADER. -/
def check_valid_png_header (headerRead : Except String (List Nat)) :
    HeaderCheckResult :=
  match headerRead with
  | Except.error m => HeaderCheckResult.ioFailed m
  | Except.ok bytes =>
    if bytes.length < 8 then HeaderCheckResult.tooShort bytes.length
    else if bytes.take 8 = pngSignature then HeaderCheckResult.valid
    else HeaderCheckResult.wrongHeader

/-! ## libpng I/O callbacks -/

/-- What a GEGL libpng callback does when it runs: whether it signals a
fatal error back to libpng (png_error / longjmp), and what it prints to
standard error. -/
structure CallbackRun where
  raisesPngError : Bool
  printed : List String
deriving DecidableEq, Repr

/-- read_fn (png-load.c lines 59-71): g_input_stream_read_all either
succeeds or sets an error; on error the callback prints the message to
standard error and returns normally without signaling libpng. -/
def read_fn (streamErr : Option String) : CallbackRun :=
  match streamErr with
  | some m => ⟨false, ["gegl:load-png read_fn: " ++ m]⟩
  | none => ⟨false, []⟩

/-- write_fn (png-save.c lines 45-57): g_output_stream_write_all either
succeeds or sets an error; on error the callback prints the message to
standard error and returns normally without signaling libpng. -/
def write_fn (streamErr : Option String) : CallbackRun :=
  match streamErr with
  | some m => ⟨false, ["gegl:save-png write_fn: " ++ m]⟩
  | none => ⟨false, []⟩

/-- flush_fn (png-save.c lines 59-70): g_output_stream_flush either
succeeds or sets an error; on error the callback prints the message to
standard error and returns normally without signaling libpng. -/
def flush_fn (streamErr : Option String) : CallbackRun :=
  match streamErr with
  | some m => ⟨false, ["gegl:save-png flush_fn: " ++ m]⟩
  | none => ⟨false, []⟩

/-! ## Decode pipeline (gegl_buffer_import_png, query_png) -/

/-- The IHDR fields and ancillary-chunk data libpng delivers after
png_read_info, modelled as an oracle input to the decode pipeline. -/
structure PngInfo where
  width : Nat
  height : Nat
  bit_depth : Nat
  color_type : Nat
  interlaceAdam7 : Bool
  hasTRNS : Bool
  chunks : PngChunks
deriving DecidableEq, Repr

/-- The bit-depth adjustment at png-load.c lines 292-296: sub-8-bit
gray is expanded (png_set_expand) and bit_depth set to 8. -/
def import_bit_depth (info : PngInfo) : Nat :=
  if info.color_type = PNG_COLOR_TYPE_GRAY ∧ info.bit_depth < 8 then 8
  else info.bit_depth

/-- The color-type adjustment at png-load.c lines 298-302 (and
query_png lines 459-460): a valid tRNS chunk turns into a full alpha
channel, so PNG_COLOR_MASK_ALPHA is or-ed into the color type. -/
def import_color_type (info : PngInfo) : Nat :=
  if info.hasTRNS then Nat.lor info.color_type PNG_COLOR_MASK_ALPHA
  else info.color_type

/-- The bytes-per-pixel switch at png-load.c lines 304-328; the default
case warns of a color type mismatch and aborts the import. -/
def bpp_of_color_type (ct : Nat) : Option Nat :=
  if ct = PNG_COLOR_TYPE_GRAY then some 1
  else if ct = PNG_COLOR_TYPE_GRAY_ALPHA then some 2
  else if ct = PNG_COLOR_TYPE_RGB then some 3
  else if ct = PNG_COLOR_TYPE_RGB_ALPHA then some 4
  else if ct = Nat.lor PNG_COLOR_TYPE_PALETTE PNG_COLOR_MASK_ALPHA then some 4
  else if ct = PNG_COLOR_TYPE_PALETTE then some 3
  else none

/-- The gamma handling at png-load.c lines 349-361: only when
gegl_png_space yielded no space, png_set_gamma is called with screen
gamma 2.2 and either the decoded gAMA value or the fixed file gamma
0.45455. The pair records (screen gamma, file gamma) of that call;
none means png_set_gamma is not called. -/
def import_gamma_call (space : Option BablSpace) (gama : Option ℚ) :
    Option (ℚ × ℚ) :=
  match space with
  | some _ => none
  | none =>
    match gama with
    | some g => some ((11 : ℚ)/5, g)
    | none => some ((11 : ℚ)/5, (45455 : ℚ)/100000)

/-- The error exits of gegl_buffer_import_png: a failed header-phase
stream read, a header that is too short or not a PNG signature (both
mapped from check_valid_png_header, the InvalidHeader family), or a
color type outside the bpp switch. -/
inductive ImportError where
  | ioFailed (msg : String)
  | invalidHeader (e : LoadPngError)
  | colorTypeMismatch
deriving DecidableEq, Repr

/-- A record of one gegl_buffer_import_png run: whether libpng parser
state was created (png_create_read_struct and onward), the return
value, the resolved space and negotiated format, the png_set_gamma
call if any, the row-buffer bytes per pixel, and everything printed to
standard error by the read callback. -/
structure ImportRun where
  parserCreated : Bool
  result : Except ImportError (Nat × Nat)
  space : Option BablSpace
  format : Option BablFormat
  gammaCall : Option (ℚ × ℚ)
  bpp : Nat
  stderrLog : List String
deriving Repr

/-- gegl_buffer_import_png (png-load.c lines 215-395). The stream is
modelled by the outcome of its header-phase read plus the error status
of each later read the libpng parser issues through read_fn; the
parsed IHDR and chunk data are the PngInfo oracle. The header check
runs before any parser state is created; then bit depth and color type
are adjusted, the bpp switch may abort, the space is resolved, the
format argument (when NULL) is negotiated via get_babl_format, and the
gamma call is decided. Body reads are processed through read_fn, which
never signals libpng, so they only contribute stderr output. -/
def gegl_buffer_import_png (parseIcc : List Nat → Option BablSpace)
    (headerRead : Except String (List Nat)) (info : PngInfo)
    (bodyReads : List (Option String)) (formatArg : Option BablFormat) :
    ImportRun :=
  match check_valid_png_header headerRead with
  | HeaderCheckResult.ioFailed m =>
    ⟨false, Except.error (ImportError.ioFailed m), none, none, none, 0, []⟩
  | HeaderCheckResult.tooShort n =>
    ⟨false, Except.error (ImportError.invalidHeader (LoadPngError.tooShort n)),
      none, none, none, 0, []⟩
  | HeaderCheckResult.wrongHeader =>
    ⟨false, Except.error (ImportError.invalidHeader LoadPngError.wrongHeader),
      none, none, none, 0, []⟩
  | HeaderCheckResult.valid =>
    let bd := import_bit_depth info
    let ct := import_color_type info
    match bpp_of_color_type ct with
    | none =>
      ⟨true, Except.error ImportError.colorTypeMismatch, none, none, none, 0, []⟩
    | some bpp0 =>
      let space := gegl_png_space parseIcc info.chunks
      let bpp := if bd = 16 then 2 * bpp0 else bpp0
      let format :=
        match formatArg with
        | some f => some f
        | none => get_babl_format bd ct space
      let gammaCall := import_gamma_call space info.chunks.gama
      let log := (bodyReads.map read_fn).foldl (fun acc r => acc ++ r.printed) []
      ⟨true, Except.ok (info.width, info.height), space, format, gammaCall, bpp, log⟩

/-- The error exits of query_png: header failures as in the import, or
an unsupported bit-depth/color-type combination (get_babl_format
returned NULL, png-load.c lines 464-469). -/
inductive QueryError where
  | ioFailed (msg : String)
  | invalidHeader (e : LoadPngError)
  | unsupportedFormat
deriving DecidableEq, Repr

/-- query_png (png-load.c lines 399-475): header-only parse reporting
width, height and the negotiated format. The tRNS adjustment or-es
the alpha mask into the color type; there is no sub-8 expansion here,
and a NULL format from get_babl_format aborts with -1. -/
def query_png (parseIcc : List Nat → Option BablSpace)
    (headerRead : Except String (List Nat)) (info : PngInfo) :
    Except QueryError (Nat × Nat × BablFormat) :=
  match check_valid_png_header headerRead with
  | HeaderCheckResult.ioFailed m => Except.error (QueryError.ioFailed m)
  | HeaderCheckResult.tooShort n =>
    Except.error (QueryError.invalidHeader (LoadPngError.tooShort n))
  | HeaderCheckResult.wrongHeader =>
    Except.error (QueryError.invalidHeader LoadPngError.wrongHeader)
  | HeaderCheckResult.valid =>
    let ct := import_color_type info
    let space := gegl_png_space parseIcc info.chunks
    match get_babl_format info.bit_depth ct space with
    | none => Except.error QueryError.unsupportedFormat
    | some f => Except.ok (info.width, info.height, f)

/-! ## Encode pipeline (export_png, png-save.c) -/

/-- A babl transfer curve as compared on the save path: export_png
tests trc[0] against babl_trc of sRGB, of 2.2 and of linear, and
treats every other curve as a fallback case. -/
inductive BablTrc where
  | srgbTrc
  | gamma22
  | linearTrc
  | otherTrc
deriving DecidableEq, Repr

/-- The view export_png takes of a babl space: whether it is the sRGB
space, whether babl_space_is_cmyk flags it, its ICC profile bytes from
babl_space_get_icc when it carries any, its babl_get_name display
name, its chromaticities and first transfer curve from
babl_space_get. -/
structure SpaceInfo where
  isSRGB : Bool
  isCMYK : Bool
  icc : Option (List Nat)
  name : String
  chroma : Chroma
  trc0 : BablTrc
deriving DecidableEq, Repr

/-- The view export_png takes of the input buffer format: whether
babl_format_has_alpha holds, babl_format_get_n_components, and
babl_format_get_space (none models a NULL space). -/
structure BablInputFormat where
  hasAlpha : Bool
  nComponents : Nat
  space : Option SpaceInfo
deriving DecidableEq, Repr

/-- The bKGD value export_png registers: the white point is filled as
RGB white 0xff on the sRGB path, as gray 0xff on the gray path, and is
left unset (uninitialized memory in the C) on the custom-space RGB
path. -/
inductive BkgdColor where
  | rgbWhite
  | grayWhite
  | unspecified
deriving DecidableEq, Repr

/-- A record of the libpng setter calls one export_png run makes while
writing the header: the IHDR fields, compression level, the combined
png_set_sRGB_gAMA_and_cHRM call (recorded with its intent), explicit
png_set_gAMA / png_set_cHRM / png_set_iCCP calls, the bKGD value, and
the babl format it reads rows in. -/
structure ExportRun where
  bit_depth : Nat
  color_type : Nat
  interlace : Nat
  compression : Nat
  srgbCall : Option Nat
  gamaCall : Option ℚ
  chrmCall : Option Chroma
  iccpCall : Option (String × List Nat)
  bkgd : BkgdColor
  layout : ChannelLayout
  depth : SampleDepth
deriving DecidableEq, Repr

/-- The color-type / format-string selection of export_png (png-save.c
lines 107-128): alpha with more than 2 components is RGBA, alpha with
2 components is gray+alpha, no alpha with more than 1 component is
RGB, otherwise gray. -/
def export_color_type (babl : BablInputFormat) : Nat × ChannelLayout :=
  if babl.hasAlpha then
    if babl.nComponents ≠ 2 then (PNG_COLOR_TYPE_RGB_ALPHA, ChannelLayout.rgba)
    else (PNG_COLOR_TYPE_GRAY_ALPHA, ChannelLayout.grayAlpha)
  else
    if babl.nComponents ≠ 1 then (PNG_COLOR_TYPE_RGB, ChannelLayout.rgb)
    else (PNG_COLOR_TYPE_GRAY, ChannelLayout.gray)

/-- The gAMA value chosen for a custom space (png-save.c lines
172-184): 2.2 when trc[0] is the sRGB or the 2.2 curve or the space is
CMYK, 1.0 when trc[0] is linear, and 2.2 as the fallback. -/
def export_gamma (s : SpaceInfo) : ℚ :=
  if s.trc0 = BablTrc.srgbTrc ∨ s.trc0 = BablTrc.gamma22 ∨ s.isCMYK = true then
    (11 : ℚ)/5
  else if s.trc0 = BablTrc.linearTrc then 1
  else (11 : ℚ)/5

/-- The iCCP emission for a custom space (png-save.c lines 186-197):
only when the space is not CMYK and babl_space_get_icc yields profile
bytes; the display name is replaced by GEGL when longer than 10
characters. -/
def export_iccp (s : SpaceInfo) : Option (String × List Nat) :=
  if s.isCMYK = true then none
  else
    match s.icc with
    | some bytes =>
      some ((if s.name.length > 10 then "GEGL" else s.name), bytes)
    | none => none

/-- The color-chunk setter calls one export_png run makes, grouped. -/
structure ColorChunkCalls where
  srgbCall : Option Nat
  gamaCall : Option ℚ
  chrmCall : Option Chroma
  iccpCall : Option (String × List Nat)
  bkgd : BkgdColor
deriving DecidableEq, Repr

/-- The color-chunk emission of export_png (png-save.c lines 145-203):
for RGB color types with an absent or sRGB space only
png_set_sRGB_gAMA_and_cHRM is called (relative colorimetric) and the
bKGD white is filled as RGB 0xff; for a custom space png_set_cHRM and
png_set_gAMA are called, png_set_iCCP per export_iccp, and the bKGD
value stays unset; for gray color types no color chunk call is made
and the bKGD white is gray 0xff. -/
def export_color_chunks (babl : BablInputFormat) (png_color_type : Nat) :
    ColorChunkCalls :=
  if png_color_type = PNG_COLOR_TYPE_RGB ∨
      png_color_type = PNG_COLOR_TYPE_RGB_ALPHA then
    match babl.space with
    | none =>
      ⟨some PNG_sRGB_INTENT_RELATIVE, none, none, none, BkgdColor.rgbWhite⟩
    | some s =>
      if s.isSRGB then
        ⟨some PNG_sRGB_INTENT_RELATIVE, none, none, none, BkgdColor.rgbWhite⟩
      else
        ⟨none, some (export_gamma s), some s.chroma, export_iccp s,
          BkgdColor.unspecified⟩
  else ⟨none, none, none, none, BkgdColor.grayWhite⟩

/-- export_png (png-save.c lines 78-240): bit depth other than 16 is
forced to 8; color type and format string come from the input format;
the IHDR is written with PNG_INTERLACE_NONE, PNG_COMPRESSION_TYPE_BASE
and PNG_FILTER_TYPE_DEFAULT; the color chunks follow
export_color_chunks; png_set_bKGD always runs. -/
def export_png (babl : BablInputFormat) (compression bitdepth : Nat) :
    ExportRun :=
  let bd := if bitdepth ≠ 16 then 8 else bitdepth
  let ctl := export_color_type babl
  let cc := export_color_chunks babl ctl.1
  ⟨bd, ctl.1, PNG_INTERLACE_NONE, compression,
    cc.srgbCall, cc.gamaCall, cc.chrmCall, cc.iccpCall, cc.bkgd,
    ctl.2, if bd = 16 then SampleDepth.u16 else SampleDepth.u8⟩

/-! ## Concrete fixtures for witnesses and counterexamples -/

/-- ICC parse oracle that succeeds on every profile. -/
def iccOracle : List Nat → Option BablSpace :=
  fun profile => some (BablSpace.fromIcc profile)

/-- ICC parse oracle for inputs with no (or unparsable) profile. -/
def noIccOracle : List Nat → Option BablSpace := fun _ => none

/-- A parsed image with an sRGB chunk and no other color chunk. -/
def srgbWithFlagInfo : PngInfo :=
  { width := 1, height := 1, bit_depth := 8
    color_type := PNG_COLOR_TYPE_GRAY
    interlaceAdam7 := false, hasTRNS := false
    chunks := { iccp := none, srgb := true, gama := none, chrm := none } }

/-- A parsed image with no color chunk at all. -/
def bareRGBInfo : PngInfo :=
  { width := 2, height := 2, bit_depth := 8
    color_type := PNG_COLOR_TYPE_RGB
    interlaceAdam7 := false, hasTRNS := false
    chunks := { iccp := none, srgb := false, gama := none, chrm := none } }

/-- A parsed gray image with no color chunk at all. -/
def grayInfo8 : PngInfo :=
  { width := 1, height := 1, bit_depth := 8
    color_type := PNG_COLOR_TYPE_GRAY
    interlaceAdam7 := false, hasTRNS := false
    chunks := { iccp := none, srgb := false, gama := none, chrm := none } }

/-- A parsed palette image with a valid tRNS chunk. -/
def paletteTrnsInfo : PngInfo :=
  { width := 4, height := 4, bit_depth := 8
    color_type := PNG_COLOR_TYPE_PALETTE
    interlaceAdam7 := false, hasTRNS := true
    chunks := { iccp := none, srgb := false, gama := none, chrm := none } }

/-- A parsed gray image with the invalid bit depth 12. -/
def badDepthInfo : PngInfo :=
  { width := 1, height := 1, bit_depth := 12
    color_type := PNG_COLOR_TYPE_GRAY
    interlaceAdam7 := false, hasTRNS := false
    chunks := { iccp := none, srgb := false, gama := none, chrm := none } }

/-- A CMYK-flagged babl space that carries ICC profile bytes. -/
def cmykSpace : SpaceInfo :=
  { isSRGB := false, isCMYK := true, icc := some [1, 2, 3]
    name := "cmyk", chroma := sRGBChroma, trc0 := BablTrc.otherTrc }

/-- An RGBA input-buffer format over the CMYK space. -/
def cmykIn : BablInputFormat :=
  { hasAlpha := true, nComponents := 5, space := some cmykSpace }

/-- The sRGB babl space as seen by the save path. -/
def sRGBSpaceInfo : SpaceInfo :=
  { isSRGB := true, isCMYK := false, icc := none
    name := "sRGB", chroma := sRGBChroma, trc0 := BablTrc.srgbTrc }

/-- A single-channel (gray) input-buffer format over the sRGB space. -/
def grayIn : BablInputFormat :=
  { hasAlpha := false, nComponents := 1, space := some sRGBSpaceInfo }

/-- A three-channel (RGB) input-buffer format with a NULL space. -/
def rgbNoSpaceIn : BablInputFormat :=
  { hasAlpha := false, nComponents := 3, space := none }

/-! ## Claim C1 -/

/-- Claim C1: whenever an iCCP chunk is present and the ICC profile
parses successfully, gegl_png_space returns the ICC-derived space and
ignores the sRGB flag, the gAMA chunk and the cHRM chunk entirely; in
particular with both an iCCP chunk and an sRGB flag the result is the
ICC-derived space, not sRGB. -/
theorem claim_C1_icc_profile_wins (parseIcc : List Nat → Option BablSpace)
    (profile : List Nat) (s : BablSpace) (srgbFlag : Bool)
    (gamaChunk : Option ℚ) (chrmChunk : Option Chroma)
    (h : parseIcc profile = some s) :
    gegl_png_space parseIcc ⟨some profile, srgbFlag, gamaChunk, chrmChunk⟩
      = some s := by
  simp [gegl_png_space, h]

/-- Witness for claim C1: a profile that parses, together with an sRGB
flag, a gAMA chunk and a cHRM chunk, all ignored. -/
theorem claim_C1_witness :
    iccOracle [1, 2, 3] = some (BablSpace.fromIcc [1, 2, 3]) ∧
    gegl_png_space iccOracle ⟨some [1, 2, 3], true, some 2, some sRGBChroma⟩
      = some (BablSpace.fromIcc [1, 2, 3]) :=
  ⟨rfl, claim_C1_icc_profile_wins iccOracle [1, 2, 3]
    (BablSpace.fromIcc [1, 2, 3]) true (some 2) (some sRGBChroma) rfl⟩

/-! ## Claim C2 -/

/-- Claim C2: with no iCCP chunk, no sRGB flag, a gAMA chunk carrying
gamma g and no cHRM chunk, the resolved space has exactly the
sRGB-standard chromaticities (white 0.3127,0.3290; red 0.6400,0.3300;
green 0.3000,0.6000; blue 0.1500,0.0600) and a pure-gamma transfer
curve of exponent 1/g on all three channels. -/
theorem claim_C2_gamma_defaults (parseIcc : List Nat → Option BablSpace)
    (g : ℚ) :
    gegl_png_space parseIcc ⟨none, false, some g, none⟩
      = some (BablSpace.fromChromaticities sRGBChroma
          (BablTrcSpec.gammaTrc (1/g)) (BablTrcSpec.gammaTrc (1/g))
          (BablTrcSpec.gammaTrc (1/g))) ∧
    sRGBChroma.wpX = (3127 : ℚ)/10000 ∧ sRGBChroma.wpY = (3290 : ℚ)/10000 ∧
    sRGBChroma.redX = (6400 : ℚ)/10000 ∧ sRGBChroma.redY = (3300 : ℚ)/10000 ∧
    sRGBChroma.greenX = (3000 : ℚ)/10000 ∧
    sRGBChroma.greenY = (6000 : ℚ)/10000 ∧
    sRGBChroma.blueX = (1500 : ℚ)/10000 ∧
    sRGBChroma.blueY = (600 : ℚ)/10000 :=
  ⟨rfl, rfl, rfl, rfl, rfl, rfl, rfl, rfl, rfl⟩

/-! ## Claim C10 -/

/-- Claim C10: every export_png run declares non-interlaced output in
its IHDR, for every input format, color space, bit depth and
compression level. -/
theorem claim_C10_no_interlace (babl : BablInputFormat)
    (compression bitdepth : Nat) :
    (export_png babl compression bitdepth).interlace = PNG_INTERLACE_NONE :=
  rfl

/-! ## Claim C3 -/

/-- Counterexample to claim C3: a decode input whose only color chunk
is the sRGB flag (resolution case 2). The claim says no numeric gamma
correction is applied in this case, but the import calls png_set_gamma
with target 2.2 and source 0.45455, exactly the fixed correction the
claim reserves for the Unresolved case, because gegl_png_space returns
NULL for the sRGB flag and the gamma block only tests that NULL. -/
theorem claim_C3_counterexample :
    (srgbWithFlagInfo.chunks.iccp = none ∧
     srgbWithFlagInfo.chunks.srgb = true ∧
     srgbWithFlagInfo.chunks.gama = none) ∧
    (gegl_buffer_import_png noIccOracle (Except.ok pngSignature)
        srgbWithFlagInfo [] none).gammaCall
      = some ((11 : ℚ)/5, (45455 : ℚ)/100000) :=
  ⟨⟨rfl, rfl, rfl⟩, rfl⟩

/-- Claim C3 as amended: on any decode that passes the header check
and the color-type switch, png_set_gamma is called exactly when
gegl_png_space yielded no space — which covers the case with no color
chunks at all, the sRGB-flag case, and a failed ICC parse — with the
fixed pair (2.2, 0.45455) when no gAMA chunk is present and
(2.2, decoded gamma) when one is; when a space was resolved (a parsed
ICC profile or a gAMA-derived descriptor) no gamma call is made. -/
theorem claim_C3_gamma_correction (parseIcc : List Nat → Option BablSpace)
    (headerRead : Except String (List Nat)) (info : PngInfo)
    (bodyReads : List (Option String)) (formatArg : Option BablFormat)
    (hv : check_valid_png_header headerRead = HeaderCheckResult.valid)
    (b : Nat) (hb : bpp_of_color_type (import_color_type info) = some b) :
    (gegl_png_space parseIcc info.chunks = none → info.chunks.gama = none →
      (gegl_buffer_import_png parseIcc headerRead info bodyReads
        formatArg).gammaCall = some ((11 : ℚ)/5, (45455 : ℚ)/100000)) ∧
    (∀ s, gegl_png_space parseIcc info.chunks = some s →
      (gegl_buffer_import_png parseIcc headerRead info bodyReads
        formatArg).gammaCall = none) ∧
    (∀ g, gegl_png_space parseIcc info.chunks = none →
      info.chunks.gama = some g →
      (gegl_buffer_import_png parseIcc headerRead info bodyReads
        formatArg).gammaCall = some ((11 : ℚ)/5, g)) := by
  simp only [gegl_buffer_import_png, hv, hb]
  refine ⟨?_, ?_, ?_⟩
  · intro h1 h2
    simp [import_gamma_call, h1, h2]
  · intro s h1
    simp [import_gamma_call, h1]
  · intro g h1 h2
    simp [import_gamma_call, h1, h2]

/-- Witness for the amended claim C3: an RGB image with no color
chunks at all receives the fixed gamma correction call. -/
theorem claim_C3_witness :
    check_valid_png_header (Except.ok pngSignature) = HeaderCheckResult.valid ∧
    bpp_of_color_type (import_color_type bareRGBInfo) = some 3 ∧
    (gegl_buffer_import_png noIccOracle (Except.ok pngSignature) bareRGBInfo
      [] none).gammaCall = some ((11 : ℚ)/5, (45455 : ℚ)/100000) :=
  ⟨rfl, rfl,
    (claim_C3_gamma_correction noIccOracle (Except.ok pngSignature) bareRGBInfo
      [] none rfl 3 rfl).1 rfl rfl⟩


/-! ## Claim C4 -/

/-- Reduction of gegl_buffer_import_png on a run that passes the
header check and whose adjusted color type is accepted by the bpp
switch. -/
theorem gegl_buffer_import_png_valid (parseIcc : List Nat → Option BablSpace)
    (headerRead : Except String (List Nat)) (info : PngInfo)
    (bodyReads : List (Option String)) (formatArg : Option BablFormat)
    (hv : check_valid_png_header headerRead = HeaderCheckResult.valid)
    (b : Nat) (hb : bpp_of_color_type (import_color_type info) = some b) :
    gegl_buffer_import_png parseIcc headerRead info bodyReads formatArg =
      { parserCreated := true
        result := Except.ok (info.width, info.height)
        space := gegl_png_space parseIcc info.chunks
        format :=
          match formatArg with
          | some f => some f
          | none => get_babl_format (import_bit_depth info)
              (import_color_type info) (gegl_png_space parseIcc info.chunks)
        gammaCall := import_gamma_call (gegl_png_space parseIcc info.chunks)
          info.chunks.gama
        bpp := if import_bit_depth info = 16 then 2 * b else b
        stderrLog := (bodyReads.map read_fn).foldl
          (fun acc r => acc ++ r.printed) [] } := by
  simp only [gegl_buffer_import_png, hv, hb]

/-- Claim C4: decoding a palette color-type image negotiates an
rgb+alpha pixel format when a valid tRNS chunk is present, and an rgb
format with alpha absent when none is: the palette is expanded to RGB
and the no-transparency case yields no alpha channel, exactly like the
plain-RGB branch. -/
theorem claim_C4_palette_format (parseIcc : List Nat → Option BablSpace)
    (headerRead : Except String (List Nat)) (info : PngInfo)
    (bodyReads : List (Option String))
    (hv : check_valid_png_header headerRead = HeaderCheckResult.valid)
    (hct : info.color_type = PNG_COLOR_TYPE_PALETTE)
    (hd : info.bit_depth ≤ 8 ∨ info.bit_depth = 16) :
    ∃ f, (gegl_buffer_import_png parseIcc headerRead info bodyReads
        none).format = some f ∧
      f.layout = (if info.hasTRNS then ChannelLayout.rgba
        else ChannelLayout.rgb) := by
  have h3 : layoutOf PNG_COLOR_TYPE_PALETTE = some ChannelLayout.rgb := by
    decide
  have h7 : layoutOf (Nat.lor PNG_COLOR_TYPE_PALETTE PNG_COLOR_MASK_ALPHA)
      = some ChannelLayout.rgba := by decide
  have hbd : import_bit_depth info = info.bit_depth := by
    simp [import_bit_depth, hct, PNG_COLOR_TYPE_PALETTE, PNG_COLOR_TYPE_GRAY]
  have hb : bpp_of_color_type (import_color_type info)
      = some (if info.hasTRNS then 4 else 3) := by
    cases htr : info.hasTRNS <;>
      simp only [import_color_type, hct, htr, if_true, if_false,
        Bool.false_eq_true, ite_false, ite_true] <;> decide
  rw [gegl_buffer_import_png_valid parseIcc headerRead info bodyReads none hv
    _ hb]
  cases htr : info.hasTRNS
  · rcases hd with hd | hd
    · exact ⟨⟨ChannelLayout.rgb, SampleDepth.u8,
        gegl_png_space parseIcc info.chunks⟩,
        by simp [get_babl_format, import_color_type, hct, htr, h3, hbd, hd],
        by simp⟩
    · refine ⟨⟨ChannelLayout.rgb, SampleDepth.u16,
        gegl_png_space parseIcc info.chunks⟩, ?_, by simp⟩
      simp only [get_babl_format, import_color_type, hct, htr,
        Bool.false_eq_true, ite_false, h3, hbd, hd]
      norm_num
  · rcases hd with hd | hd
    · exact ⟨⟨ChannelLayout.rgba, SampleDepth.u8,
        gegl_png_space parseIcc info.chunks⟩,
        by simp [get_babl_format, import_color_type, hct, htr, h7, hbd, hd],
        by simp⟩
    · refine ⟨⟨ChannelLayout.rgba, SampleDepth.u16,
        gegl_png_space parseIcc info.chunks⟩, ?_, by simp⟩
      simp only [get_babl_format, import_color_type, hct, htr, ite_true,
        h7, hbd, hd]
      norm_num

/-- Witness for claim C4: a palette image with a tRNS chunk decodes to
an rgb+alpha format. -/
theorem claim_C4_witness :
    check_valid_png_header (Except.ok pngSignature) = HeaderCheckResult.valid ∧
    paletteTrnsInfo.color_type = PNG_COLOR_TYPE_PALETTE ∧
    (paletteTrnsInfo.bit_depth ≤ 8 ∨ paletteTrnsInfo.bit_depth = 16) ∧
    ∃ f, (gegl_buffer_import_png noIccOracle (Except.ok pngSignature)
        paletteTrnsInfo [] none).format = some f ∧
      f.layout = (if paletteTrnsInfo.hasTRNS then ChannelLayout.rgba
        else ChannelLayout.rgb) :=
  ⟨rfl, rfl, Or.inl (by decide),
    claim_C4_palette_format noIccOracle (Except.ok pngSignature)
      paletteTrnsInfo [] rfl rfl (Or.inl (by decide))⟩

/-! ## Claim C5 -/

/-- Claim C5: on a header-only decode whose color type resolves to a
channel layout, a bit depth of at most 8 is reported as 8-bit samples,
a bit depth of exactly 16 as 16-bit samples, and any bit depth from 9
to 15 fails with the unsupported-format error instead of producing a
pixel format. -/
theorem claim_C5_bit_depth (parseIcc : List Nat → Option BablSpace)
    (headerRead : Except String (List Nat)) (info : PngInfo)
    (hv : check_valid_png_header headerRead = HeaderCheckResult.valid)
    (l : ChannelLayout) (hl : layoutOf (import_color_type info) = some l) :
    (info.bit_depth ≤ 8 → query_png parseIcc headerRead info =
      Except.ok (info.width, info.height,
        ⟨l, SampleDepth.u8, gegl_png_space parseIcc info.chunks⟩)) ∧
    (info.bit_depth = 16 → query_png parseIcc headerRead info =
      Except.ok (info.width, info.height,
        ⟨l, SampleDepth.u16, gegl_png_space parseIcc info.chunks⟩)) ∧
    (9 ≤ info.bit_depth → info.bit_depth ≤ 15 →
      query_png parseIcc headerRead info =
        Except.error QueryError.unsupportedFormat) := by
  refine ⟨?_, ?_, ?_⟩
  · intro h8
    simp only [query_png, hv, get_babl_format, hl, h8, ite_true]
  · intro h16
    simp only [query_png, hv, get_babl_format, hl, h16]
    norm_num
  · intro h9 h15
    have hn8 : ¬ info.bit_depth ≤ 8 := by omega
    have hn16 : ¬ info.bit_depth = 16 := by omega
    simp only [query_png, hv, get_babl_format, hl, hn8, hn16, ite_false]

/-- Witness for claim C5: a gray image with bit depth 12 fails the
header-only decode with the unsupported-format error. -/
theorem claim_C5_witness :
    check_valid_png_header (Except.ok pngSignature) = HeaderCheckResult.valid ∧
    layoutOf (import_color_type badDepthInfo) = some ChannelLayout.gray ∧
    9 ≤ badDepthInfo.bit_depth ∧ badDepthInfo.bit_depth ≤ 15 ∧
    query_png noIccOracle (Except.ok pngSignature) badDepthInfo =
      Except.error QueryError.unsupportedFormat :=
  ⟨rfl, by decide, by decide, by decide,
    (claim_C5_bit_depth noIccOracle (Except.ok pngSignature) badDepthInfo rfl
      ChannelLayout.gray (by decide)).2.2 (by decide) (by decide)⟩

/-! ## Claim C6 -/

/-- Claim C6: a stream whose initial read yields fewer than 8 bytes,
or exactly 8 bytes different from the PNG signature, makes the decode
fail with an InvalidHeader-family error (LOAD_PNG_TOO_SHORT or
LOAD_PNG_WRONG_HEADER) before any libpng parser state is created. -/
theorem claim_C6_invalid_header (parseIcc : List Nat → Option BablSpace)
    (bytes : List Nat) (info : PngInfo) (bodyReads : List (Option String))
    (formatArg : Option BablFormat)
    (h : bytes.length < 8 ∨ (bytes.length = 8 ∧ bytes ≠ pngSignature)) :
    ∃ e, (gegl_buffer_import_png parseIcc (Except.ok bytes) info bodyReads
        formatArg).result = Except.error (ImportError.invalidHeader e) ∧
      (gegl_buffer_import_png parseIcc (Except.ok bytes) info bodyReads
        formatArg).parserCreated = false := by
  rcases h with h | ⟨hlen, hne⟩
  · refine ⟨LoadPngError.tooShort bytes.length, ?_, ?_⟩ <;>
      simp [gegl_buffer_import_png, check_valid_png_header, h]
  · have htake : bytes.take 8 = bytes := by
      rw [← hlen]
      exact List.take_length bytes
    have hnlt : ¬ bytes.length < 8 := by omega
    refine ⟨LoadPngError.wrongHeader, ?_, ?_⟩ <;>
      simp [gegl_buffer_import_png, check_valid_png_header, hnlt, htake, hne]

/-- Witness for claim C6: the empty stream fails with the too-short
error and no parser state. -/
theorem claim_C6_witness :
    ([] : List Nat).length < 8 ∧
    ∃ e, (gegl_buffer_import_png noIccOracle (Except.ok []) grayInfo8 []
        none).result = Except.error (ImportError.invalidHeader e) ∧
      (gegl_buffer_import_png noIccOracle (Except.ok []) grayInfo8 []
        none).parserCreated = false :=
  ⟨by decide,
    claim_C6_invalid_header noIccOracle [] grayInfo8 [] none
      (Or.inl (by decide))⟩

/-! ## Claim C7 -/

/-- Claim C7: an encode whose color space is CMYK-flagged never makes
the png_set_iCCP call, even when the space carries profile bytes; and
whenever the png_set_iCCP call is made, the space is non-CMYK and
carries exactly the emitted profile bytes. -/
theorem claim_C7_cmyk_no_iccp (babl : BablInputFormat)
    (compression bitdepth : Nat) :
    (∀ s, babl.space = some s → s.isCMYK = true →
      (export_png babl compression bitdepth).iccpCall = none) ∧
    (∀ nm bytes,
      (export_png babl compression bitdepth).iccpCall = some (nm, bytes) →
      ∃ s, babl.space = some s ∧ s.isCMYK = false ∧ s.icc = some bytes) := by
  have key : (export_png babl compression bitdepth).iccpCall
      = (export_color_chunks babl (export_color_type babl).1).iccpCall := rfl
  constructor
  · intro s hs hcmyk
    rw [key]
    unfold export_color_chunks
    split
    · rw [hs]
      cases hsr : s.isSRGB <;> simp [hsr, export_iccp, hcmyk]
    · rfl
  · intro nm bytes h
    rw [key] at h
    unfold export_color_chunks at h
    split at h
    · cases hsp : babl.space with
      | none => rw [hsp] at h; simp at h
      | some s =>
        rw [hsp] at h
        cases hsr : s.isSRGB
        · simp only [hsr, Bool.false_eq_true, ite_false] at h
          cases hc : s.isCMYK
          · cases hicc : s.icc with
            | none => simp [export_iccp, hc, hicc] at h
            | some bs =>
              simp only [export_iccp, hc, Bool.false_eq_true, ite_false,
                hicc] at h
              have h2 : bs = bytes := congrArg Prod.snd (Option.some.inj h)
              exact ⟨s, rfl, hc, by rw [hicc, h2]⟩
          · simp [export_iccp, hc] at h
        · simp [hsr] at h
    · simp at h

/-- Witness for claim C7: a CMYK space carrying profile bytes emits no
iCCP chunk. -/
theorem claim_C7_witness :
    cmykIn.space = some cmykSpace ∧ cmykSpace.isCMYK = true ∧
    cmykSpace.icc = some [1, 2, 3] ∧
    (export_png cmykIn 3 8).iccpCall = none :=
  ⟨rfl, rfl, rfl,
    (claim_C7_cmyk_no_iccp cmykIn 3 8).1 cmykSpace rfl rfl⟩

/-! ## Claim C8 -/

/-- Counterexample to claim C8: a single-channel (gray) image encoded
with the sRGB color space. The claim says the sRGB-intent flag is
emitted regardless of channel layout, but the whole color-chunk block
of export_png is guarded by an RGB color type, so a gray image emits
no color chunk at all: no sRGB call is made and only the gray
background value is set. -/
theorem claim_C8_counterexample :
    grayIn.space = some sRGBSpaceInfo ∧ sRGBSpaceInfo.isSRGB = true ∧
    (export_png grayIn 3 8).color_type = PNG_COLOR_TYPE_GRAY ∧
    (export_png grayIn 3 8).srgbCall = none ∧
    (export_png grayIn 3 8).bkgd = BkgdColor.grayWhite :=
  ⟨rfl, rfl, rfl, rfl, rfl⟩

/-- The color chunks of an export over an absent or sRGB space: the
combined sRGB call for RGB color types, nothing for the others. -/
theorem export_color_chunks_srgb (babl : BablInputFormat) (ct : Nat)
    (h : babl.space = none ∨ ∃ s, babl.space = some s ∧ s.isSRGB = true) :
    export_color_chunks babl ct =
      if ct = PNG_COLOR_TYPE_RGB ∨ ct = PNG_COLOR_TYPE_RGB_ALPHA then
        ⟨some PNG_sRGB_INTENT_RELATIVE, none, none, none, BkgdColor.rgbWhite⟩
      else ⟨none, none, none, none, BkgdColor.grayWhite⟩ := by
  unfold export_color_chunks
  rcases h with h | ⟨s, hs, hsr⟩
  · rw [h]
  · rw [hs]
    simp [hsr]

/-- Claim C8 as amended: when the color space is absent or equals
sRGB, no gAMA, cHRM or iCCP call is ever made; for RGB and RGB+alpha
color types exactly the combined sRGB call is made with
relative-colorimetric intent (png_set_sRGB_gAMA_and_cHRM) and the
background is set to RGB white; for gray color types no color chunk
call is made at all and the background is set to gray white. -/
theorem claim_C8_srgb_chunks (babl : BablInputFormat)
    (compression bitdepth : Nat)
    (h : babl.space = none ∨ ∃ s, babl.space = some s ∧ s.isSRGB = true) :
    ((export_png babl compression bitdepth).gamaCall = none ∧
     (export_png babl compression bitdepth).chrmCall = none ∧
     (export_png babl compression bitdepth).iccpCall = none) ∧
    (((export_png babl compression bitdepth).color_type = PNG_COLOR_TYPE_RGB ∨
      (export_png babl compression bitdepth).color_type
        = PNG_COLOR_TYPE_RGB_ALPHA) →
      (export_png babl compression bitdepth).srgbCall
          = some PNG_sRGB_INTENT_RELATIVE ∧
        (export_png babl compression bitdepth).bkgd = BkgdColor.rgbWhite) ∧
    (((export_png babl compression bitdepth).color_type = PNG_COLOR_TYPE_GRAY ∨
      (export_png babl compression bitdepth).color_type
        = PNG_COLOR_TYPE_GRAY_ALPHA) →
      (export_png babl compression bitdepth).srgbCall = none ∧
        (export_png babl compression bitdepth).bkgd = BkgdColor.grayWhite) := by
  have key := export_color_chunks_srgb babl (export_color_type babl).1 h
  refine ⟨⟨?_, ?_, ?_⟩, ?_, ?_⟩
  · show (export_color_chunks babl (export_color_type babl).1).gamaCall = none
    rw [key]; split <;> rfl
  · show (export_color_chunks babl (export_color_type babl).1).chrmCall = none
    rw [key]; split <;> rfl
  · show (export_color_chunks babl (export_color_type babl).1).iccpCall = none
    rw [key]; split <;> rfl
  · intro hrgb
    have hrgb2 : (export_color_type babl).1 = PNG_COLOR_TYPE_RGB ∨
        (export_color_type babl).1 = PNG_COLOR_TYPE_RGB_ALPHA := hrgb
    constructor
    · show (export_color_chunks babl (export_color_type babl).1).srgbCall
        = some PNG_sRGB_INTENT_RELATIVE
      rw [key, if_pos hrgb2]
    · show (export_color_chunks babl (export_color_type babl).1).bkgd
        = BkgdColor.rgbWhite
      rw [key, if_pos hrgb2]
  · intro hgray
    have hne : ¬ ((export_color_type babl).1 = PNG_COLOR_TYPE_RGB ∨
        (export_color_type babl).1 = PNG_COLOR_TYPE_RGB_ALPHA) := by
      rcases hgray with hg | hg <;> rw [show (export_color_type babl).1
        = (export_png babl compression bitdepth).color_type from rfl, hg] <;>
        decide
    constructor
    · show (export_color_chunks babl (export_color_type babl).1).srgbCall
        = none
      rw [key, if_neg hne]
    · show (export_color_chunks babl (export_color_type babl).1).bkgd
        = BkgdColor.grayWhite
      rw [key, if_neg hne]

/-- Witness for the amended claim C8: an RGB image with a NULL space
gets exactly the combined sRGB call and an RGB-white background. -/
theorem claim_C8_witness :
    (rgbNoSpaceIn.space = none ∨ ∃ s, rgbNoSpaceIn.space = some s ∧
      s.isSRGB = true) ∧
    (export_png rgbNoSpaceIn 3 8).gamaCall = none ∧
    (export_png rgbNoSpaceIn 3 8).srgbCall = some PNG_sRGB_INTENT_RELATIVE ∧
    (export_png rgbNoSpaceIn 3 8).bkgd = BkgdColor.rgbWhite :=
  ⟨Or.inl rfl,
    (claim_C8_srgb_chunks rgbNoSpaceIn 3 8 (Or.inl rfl)).1.1,
    ((claim_C8_srgb_chunks rgbNoSpaceIn 3 8 (Or.inl rfl)).2.1
      (Or.inl rfl)).1,
    ((claim_C8_srgb_chunks rgbNoSpaceIn 3 8 (Or.inl rfl)).2.1
      (Or.inl rfl)).2⟩

/-! ## Claim C9 -/

/-- Counterexample to claim C9: a decode whose stream read fails
during row parsing. The claim says the failure surfaces immediately as
an IoError of the decode call, but read_fn only prints the message to
standard error and returns normally without signaling libpng, so the
decode completes with a success result as if the I/O had
succeeded. -/
theorem claim_C9_counterexample :
    (read_fn (some "read failed")).raisesPngError = false ∧
    (gegl_buffer_import_png noIccOracle (Except.ok pngSignature) grayInfo8
      [some "read failed"] none).result = Except.ok (1, 1) ∧
    (gegl_buffer_import_png noIccOracle (Except.ok pngSignature) grayInfo8
      [some "read failed"] none).stderrLog
      = ["gegl:load-png read_fn: read failed"] :=
  ⟨rfl, rfl, rfl⟩

/-- Claim C9 as amended: only the initial 8-byte header read surfaces
a stream I/O failure as an error of the decode call (before any parser
state is created); I/O failures inside the libpng read, write and
flush callbacks are printed to standard error and the callbacks return
without signaling libpng, so the decode result is entirely independent
of whether those stream operations fail. -/
theorem claim_C9_io_error_handling (parseIcc : List Nat → Option BablSpace)
    (info : PngInfo) (bodyReads otherReads : List (Option String))
    (formatArg : Option BablFormat) (m : String) (e : Option String)
    (headerRead : Except String (List Nat)) :
    (gegl_buffer_import_png parseIcc (Except.error m) info bodyReads
      formatArg).result = Except.error (ImportError.ioFailed m) ∧
    (gegl_buffer_import_png parseIcc (Except.error m) info bodyReads
      formatArg).parserCreated = false ∧
    (read_fn e).raisesPngError = false ∧
    (write_fn e).raisesPngError = false ∧
    (flush_fn e).raisesPngError = false ∧
    (gegl_buffer_import_png parseIcc headerRead info bodyReads
        formatArg).result
      = (gegl_buffer_import_png parseIcc headerRead info otherReads
        formatArg).result := by
  refine ⟨rfl, rfl, ?_, ?_, ?_, ?_⟩
  · cases e <;> rfl
  · cases e <;> rfl
  · cases e <;> rfl
  · cases hck : check_valid_png_header headerRead <;>
      simp only [gegl_buffer_import_png, hck]
    cases hb : bpp_of_color_type (import_color_type info) <;>
      simp only [hb]
